import Mathlib

/-!
Verification development for the 3D-Sound-Node repository.

The repository's algorithmic core is a 3D force-directed layout engine built
on top of d3-force (src/unnamed/part_003, the typed variant of
src/unnamed/part_002): a hand-built z-axis force (`forceZ`), a quadtree-backed
3D collision force (`forceCollide3D`), a simulation builder that registers
eight named forces and overrides `tick` (`create3DForceSimulation`), and
dynamic-growth helpers (`addNodeToSimulation`, `addLinkToSimulation`).
Alongside it sit a Svelte selection store
(src/src/lib/stores/selectionStore.ts) and an animation loop
(src/src/lib/components/NodeGraph.svelte).

JavaScript numbers are embedded as `JsNum`: exact rationals plus the IEEE
special values `+Infinity`, `-Infinity` and `NaN`, with the arithmetic rules
JavaScript uses on them.  `Math.sqrt` is embedded as `jsSqrt`, exact on 0,
perfect squares and the special values; every theorem below evaluates it only
at such points, or carries its value as an explicit hypothesis.  Force code
whose claims involve only finite arithmetic (`forceZ`, the simulation alpha)
is embedded directly on ℚ.
-/

/-- A JavaScript number: a finite value (embedded exactly as a rational) or
one of the IEEE special values. -/
inductive JsNum where
  | finite : ℚ → JsNum
  | posInf : JsNum
  | negInf : JsNum
  | nan : JsNum
deriving DecidableEq, Repr

namespace JsNum

/-- JavaScript unary negation. -/
def jneg : JsNum → JsNum
  | finite q => finite (-q)
  | posInf => negInf
  | negInf => posInf
  | nan => nan

/-- JavaScript addition: NaN propagates, opposite infinities give NaN. -/
def jadd : JsNum → JsNum → JsNum
  | nan, _ => nan
  | _, nan => nan
  | posInf, negInf => nan
  | negInf, posInf => nan
  | posInf, _ => posInf
  | negInf, _ => negInf
  | finite _, posInf => posInf
  | finite _, negInf => negInf
  | finite a, finite b => finite (a + b)

/-- JavaScript subtraction. -/
def jsub (a b : JsNum) : JsNum := jadd a (jneg b)

/-- JavaScript multiplication: NaN propagates, infinity times zero is NaN,
otherwise infinities follow the sign rule. -/
def jmul : JsNum → JsNum → JsNum
  | nan, _ => nan
  | _, nan => nan
  | finite a, finite b => finite (a * b)
  | finite a, posInf => if a = 0 then nan else if 0 < a then posInf else negInf
  | finite a, negInf => if a = 0 then nan else if 0 < a then negInf else posInf
  | posInf, finite b => if b = 0 then nan else if 0 < b then posInf else negInf
  | negInf, finite b => if b = 0 then nan else if 0 < b then negInf else posInf
  | posInf, posInf => posInf
  | posInf, negInf => negInf
  | negInf, posInf => negInf
  | negInf, negInf => posInf

/-- JavaScript division: a nonzero finite value divided by (positive) zero is
a signed infinity, zero by zero is NaN, infinities over finite values keep the
sign rule, infinity over infinity is NaN. -/
def jdiv : JsNum → JsNum → JsNum
  | nan, _ => nan
  | _, nan => nan
  | finite a, finite b =>
      if b = 0 then (if a = 0 then nan else if 0 < a then posInf else negInf)
      else finite (a / b)
  | finite _, posInf => finite 0
  | finite _, negInf => finite 0
  | posInf, finite b => if 0 ≤ b then posInf else negInf
  | negInf, finite b => if 0 ≤ b then negInf else posInf
  | posInf, posInf => nan
  | posInf, negInf => nan
  | negInf, posInf => nan
  | negInf, negInf => nan

/-- The JavaScript `<` comparison: any comparison with NaN is false. -/
def jlt : JsNum → JsNum → Bool
  | nan, _ => false
  | _, nan => false
  | finite a, finite b => decide (a < b)
  | finite _, posInf => true
  | finite _, negInf => false
  | posInf, _ => false
  | negInf, negInf => false
  | negInf, _ => true

/-- The `Math.sqrt` function, embedded exactly where JavaScript's is exact: on 0, perfect
squares and the special values.  (`Rat.sqrt` is the rational floor square
root, which agrees with `Math.sqrt` at perfect squares; no theorem in this
file evaluates `jsSqrt` at a finite point where the two could differ without
carrying the value as a hypothesis.) -/
def jsSqrt : JsNum → JsNum
  | finite q => if q < 0 then nan else finite (Rat.sqrt q)
  | posInf => posInf
  | negInf => nan
  | nan => nan

/-- Whether the number is NaN. -/
def isNaN : JsNum → Bool
  | nan => true
  | _ => false

/-- Whether the number is finite (neither NaN nor an infinity). -/
def isFinite : JsNum → Bool
  | finite _ => true
  | _ => false

end JsNum

/-! ## The z-axis force (`forceZ`, src/unnamed/part_003 lines 30-63)

`forceZ` keeps per-node state `vz` (possibly still absent, hence `Option`)
and mutates `z` in place.  The claims about it involve only finite
arithmetic, so it is embedded on exact rationals. -/

/-- A node as seen by `forceZ`: its `z` position and its `vz` velocity, which
is `none` while the JavaScript field is still `undefined`. -/
structure ZNode where
  z : ℚ
  vz : Option ℚ
deriving DecidableEq, Repr

/-- One iteration of the loop body of `forceZ`'s inner `force(alpha)`
(src/unnamed/part_003 lines 36-47): initialize `vz` to 0 when undefined
(`node.vz === undefined` check followed by `node.vz = node.vz || 0`), add
`alpha * strength_ * (target_ - node.z)` to `vz`, then add `node.vz * 0.9`
to `z`. -/
def forceZStepNode (alpha strength target : ℚ) (n : ZNode) : ZNode :=
  let vz0 : ℚ := n.vz.getD 0
  let vz1 : ℚ := vz0 + alpha * strength * (target - n.z)
  { z := n.z + vz1 * (9 / 10), vz := some vz1 }

/-- The whole `force(alpha)` call of `forceZ`: the loop body applied to every
node of the bound array. -/
def forceZApply (alpha strength target : ℚ) (nodes : List ZNode) : List ZNode :=
  nodes.map (forceZStepNode alpha strength target)

/-- Modelled from the spec: the per-node update §4.2 prescribes —
`vz += alpha * strength * (target - z)`, then `vz *= 0.9`, then `z += vz` —
for comparison with the update the source actually performs. -/
def forceZStepSpec (alpha strength target : ℚ) (n : ZNode) : ZNode :=
  let vz0 : ℚ := n.vz.getD 0
  let vz1 : ℚ := vz0 + alpha * strength * (target - n.z)
  let vz2 : ℚ := vz1 * (9 / 10)
  { z := n.z + vz2, vz := some vz2 }

/-! ## The 3D collision force (`forceCollide3D`, src/unnamed/part_003 lines 70-138)

All arithmetic is on `JsNum`, since the interesting behaviour (the missing
zero-distance guard) lives in the IEEE special values. -/

/-- A node as seen by `forceCollide3D`: a position and the optional `size`
field its radius accessor reads. -/
structure CNode where
  x : JsNum
  y : JsNum
  z : JsNum
  size : Option JsNum
deriving DecidableEq, Repr

/-- JavaScript truthiness for a number: 0 and NaN are falsy. -/
def jsTruthy : JsNum → Bool
  | JsNum.finite q => decide (q ≠ 0)
  | JsNum.nan => false
  | _ => true

/-- The radius accessor registered in `create3DForceSimulation`
(src/unnamed/part_003 line 175): `d => d.size ? d.size * 1.5 : 0.8`. -/
def collideRadiusDefault (d : CNode) : JsNum :=
  match d.size with
  | some s => if jsTruthy s then JsNum.jmul s (JsNum.finite (3 / 2)) else JsNum.finite (4 / 5)
  | none => JsNum.finite (4 / 5)

/-- The collision body of `forceCollide3D` for one candidate pair
(src/unnamed/part_003 lines 96-120): compute the true 3D distance
`l = Math.sqrt(dx*dx + dy*dy + dz*dz)` and the radius sum
`r = radius_(node) + radius_(otherNode)`; if `l < r`, set
`f = (l - r) / l * alpha * strength_`, scale the separation vector by `f`,
subtract it from `node` and add it to `otherNode`. -/
def collidePair (radius_ : CNode → JsNum) (strength_ alpha : JsNum)
    (node otherNode : CNode) : CNode × CNode :=
  let dx := JsNum.jsub node.x otherNode.x
  let dy := JsNum.jsub node.y otherNode.y
  let dz := JsNum.jsub node.z otherNode.z
  let l := JsNum.jsSqrt
    (JsNum.jadd (JsNum.jadd (JsNum.jmul dx dx) (JsNum.jmul dy dy)) (JsNum.jmul dz dz))
  let r := JsNum.jadd (radius_ node) (radius_ otherNode)
  if JsNum.jlt l r then
    let f := JsNum.jmul (JsNum.jmul (JsNum.jdiv (JsNum.jsub l r) l) alpha) strength_
    let fx := JsNum.jmul dx f
    let fy := JsNum.jmul dy f
    let fz := JsNum.jmul dz f
    ({ node with
        x := JsNum.jsub node.x fx, y := JsNum.jsub node.y fy, z := JsNum.jsub node.z fz },
     { otherNode with
        x := JsNum.jadd otherNode.x fx, y := JsNum.jadd otherNode.y fy,
        z := JsNum.jadd otherNode.z fz })
  else (node, otherNode)

/-- Processing of one candidate `j` while the outer loop is at node `i`:
self-pairs are skipped (`otherNode !== node`), otherwise the collision body
runs on the current values and both nodes are written back. -/
def collideScanPair (radius_ : CNode → JsNum) (strength_ alpha : JsNum)
    (nodes : List CNode) (i j : ℕ) : List CNode :=
  if i = j then nodes
  else
    match nodes.get? i, nodes.get? j with
    | some a, some b =>
        let p := collidePair radius_ strength_ alpha a b
        (nodes.set i p.1).set j p.2
    | _, _ => nodes

/-- Modelled from the spec (§4.3): the d3 quadtree `visit` — the d3-quadtree
library itself is an external dependency, not in src/ — presents, for the
node at index `i`, the other stored nodes as collision candidates; the
cell-level bounding-box pruning only skips candidates that cannot collide in
the x-y plane, so enumerating every other index is the same force. -/
def collideVisitAll (radius_ : CNode → JsNum) (strength_ alpha : JsNum)
    (nodes : List CNode) (i : ℕ) : List CNode :=
  (List.range nodes.length).foldl
    (fun ns j => collideScanPair radius_ strength_ alpha ns i j) nodes

/-- The whole `force(alpha)` call of `forceCollide3D`
(src/unnamed/part_003 lines 75-127): the outer loop over all nodes, each
iteration visiting its collision candidates. -/
def forceCollide3DApply (radius_ : CNode → JsNum) (strength_ alpha : JsNum)
    (nodes : List CNode) : List CNode :=
  (List.range nodes.length).foldl
    (fun ns i => collideVisitAll radius_ strength_ alpha ns i) nodes

/-! ## Force registration and the tick override
(`create3DForceSimulation`, src/unnamed/part_003 lines 146-203)

For the per-tick invocation order the relevant structure is which `apply`
functions run, and in which order; the forces are therefore tracked by their
registered names. -/

/-- The names under which `create3DForceSimulation` registers its forces. -/
inductive ForceName where
  | link | charge | center | radial | posX | posY | z | collide
deriving DecidableEq, Repr

/-- The registration order of `create3DForceSimulation`
(src/unnamed/part_003 lines 148-175): `link`, `charge`, `center`, `radial`,
`x`, `y`, `z`, `collide`. -/
def registeredForces : List ForceName :=
  [ForceName.link, ForceName.charge, ForceName.center, ForceName.radial,
   ForceName.posX, ForceName.posY, ForceName.z, ForceName.collide]

/-- Modelled from the spec (§4.1): the base d3 tick — the d3-force library is
an external dependency, not in src/ — applies every registered force exactly
once, in registration order (d3 stores forces in an insertion-ordered map and
iterates it). -/
def baseTickTrace (forces : List ForceName) : List ForceName := forces

/-- The overridden `simulation.tick` of `create3DForceSimulation`
(src/unnamed/part_003 lines 182-200): run the original tick, then, when a
force is registered under `z`, invoke it again, then likewise for
`collide`. -/
def overriddenTickTrace (forces : List ForceName) : List ForceName :=
  baseTickTrace forces
    ++ (if ForceName.z ∈ forces then [ForceName.z] else [])
    ++ (if ForceName.collide ∈ forces then [ForceName.collide] else [])

/-- The sequence of force `apply` invocations one call of the overridden
`tick` performs on the simulation `create3DForceSimulation` builds. -/
def tickForceInvocations : List ForceName := overriddenTickTrace registeredForces

/-! ## Dynamic growth (`addNodeToSimulation` / `addLinkToSimulation`,
src/unnamed/part_003 lines 210-234) -/

/-- The simulation state the growth helpers touch: the live node and link
arrays, the alpha scalar, and whether the internal stepping is running
(restarted). -/
structure SimGrowState where
  nodes : List String
  links : List (String × String)
  alpha : ℚ
  running : Bool
deriving DecidableEq, Repr

/-- The `simulation.alpha(a)` setter. -/
def simSetAlpha (s : SimGrowState) (a : ℚ) : SimGrowState := { s with alpha := a }

/-- The `simulation.restart()` call: re-activates the internal stepping. -/
def simRestart (s : SimGrowState) : SimGrowState := { s with running := true }

/-- The helper `addNodeToSimulation` (src/unnamed/part_003 lines 210-217): push the node
onto the live array, rebind it, then `simulation.alpha(0.5).restart()`. -/
def addNodeToSimulation (s : SimGrowState) (node : String) : SimGrowState :=
  simRestart (simSetAlpha { s with nodes := s.nodes ++ [node] } (1 / 2))

/-- The helper `addLinkToSimulation` (src/unnamed/part_003 lines 224-234): push the link
onto the link force's array, rebind it, then `simulation.alpha(0.5).restart()`. -/
def addLinkToSimulation (s : SimGrowState) (link : String × String) : SimGrowState :=
  simRestart (simSetAlpha { s with links := s.links ++ [link] } (1 / 2))

/-! ## The link force on unresolvable endpoints

`create3DForceSimulation` registers `d3.forceLink(links).id(d => d.id)`
(src/unnamed/part_003 lines 150-156); the endpoint-resolution logic itself
lives in the external d3-force library, not in src/. -/

/-- A node as seen by the link force. -/
structure LNode where
  id : String
  x : ℚ
  y : ℚ
deriving DecidableEq, Repr

/-- A link prior to resolution: two node ids. -/
structure LLink where
  sourceId : String
  targetId : String
deriving DecidableEq, Repr

/-- Endpoint resolution by the registered id accessor `d => d.id`. -/
def resolveEndpoint (nodes : List LNode) (nid : String) : Option LNode :=
  nodes.find? (fun n => n.id = nid)

/-- Modelled from the spec (§4.1, §7): the link force treats each link as a
spring — displacement proportional to
`(actual_distance - target_distance) * strength * alpha`, split between the
two endpoints — and a link whose endpoint id cannot be resolved contributes
no force and must not throw.  The d3-force implementation is an external
dependency, not in src/.  The spring displacement is kept abstract as
`pull`, applied only when both endpoints resolve. -/
def linkForceStep (pull : LNode → LNode → List LNode → List LNode)
    (ns : List LNode) (l : LLink) : List LNode :=
  match resolveEndpoint ns l.sourceId, resolveEndpoint ns l.targetId with
  | some a, some b => pull a b ns
  | _, _ => ns

/-- Modelled from the spec (§4.1, §7): one application of the link force —
every link processed in order, each contributing through `linkForceStep`. -/
def linkForceApply (pull : LNode → LNode → List LNode → List LNode)
    (nodes : List LNode) (links : List LLink) : List LNode :=
  links.foldl (linkForceStep pull) nodes

/-! ## The stabilization controller

Modelled from the spec: §4.4 describes a controller driven once per animation
callback that keeps a frame counter, calls `tick()` while running, and after
a configured frame threshold sets `running = false` and stops — but no file
under src/ implements it: the animation loop that exists
(src/src/lib/components/NodeGraph.svelte lines 175-188) contains no frame
counter, no running flag and no `tick()` call. -/

/-- Modelled from the spec (§4.4): controller state — node positions, the
frame counter and the running flag. -/
structure ControllerState where
  positions : List (ℚ × ℚ × ℚ)
  frames : ℕ
  running : Bool
deriving DecidableEq, Repr

/-- Modelled from the spec (§4.4): the per-frame step.  While running it
calls `tick` (abstract here) and counts the frame; once the threshold is
reached it clears the running flag; once stopped it does nothing. -/
def controllerStep (threshold : ℕ) (tick : List (ℚ × ℚ × ℚ) → List (ℚ × ℚ × ℚ))
    (st : ControllerState) : ControllerState :=
  if st.running then
    let frames' := st.frames + 1
    { positions := tick st.positions, frames := frames',
      running := decide (frames' < threshold) }
  else st

/-! ## The selection store (src/src/lib/stores/selectionStore.ts) -/

/-- The state of the selection store: the currently selected node id, if
any. -/
abbrev SelState : Type := Option String

/-- The `select(nodeId)` operation (selectionStore.ts lines 24-26). -/
def selStoreSelect (nodeId : String) (_s : SelState) : SelState := some nodeId

/-- The `deselect()` operation (selectionStore.ts lines 31-33). -/
def selStoreDeselect (_s : SelState) : SelState := none

/-- The `toggle(nodeId)` operation (selectionStore.ts lines 40-56): deselect and return
`false` when `nodeId` is already selected, otherwise select it and return
`true`. -/
def selStoreToggle (nodeId : String) (s : SelState) : Bool × SelState :=
  if s = some nodeId then (false, none) else (true, some nodeId)

/-- The `clear()` operation (selectionStore.ts lines 61-63). -/
def selStoreClear (_s : SelState) : SelState := none

/-- The `isSelected(nodeId)` operation (selectionStore.ts lines 70-78). -/
def selStoreIsSelected (nodeId : String) (s : SelState) : Bool :=
  decide (s = some nodeId)

/-- The store's public mutating operations. -/
inductive SelOp where
  | select : String → SelOp
  | deselect : SelOp
  | toggle : String → SelOp
  | clear : SelOp
deriving DecidableEq, Repr

/-- Apply one operation to the store state. -/
def selStoreApply (op : SelOp) (s : SelState) : SelState :=
  match op with
  | SelOp.select nid => selStoreSelect nid s
  | SelOp.deselect => selStoreDeselect s
  | SelOp.toggle nid => (selStoreToggle nid s).2
  | SelOp.clear => selStoreClear s

/-- Apply a sequence of operations, first one first. -/
def selStoreRun (ops : List SelOp) (s : SelState) : SelState :=
  ops.foldl (fun st op => selStoreApply op st) s


/-! ## Helper lemmas on `JsNum` arithmetic -/

namespace JsNum

@[simp] theorem jneg_finite (a : ℚ) : jneg (finite a) = finite (-a) := rfl

@[simp] theorem jadd_finite (a b : ℚ) : jadd (finite a) (finite b) = finite (a + b) := rfl

@[simp] theorem jsub_finite (a b : ℚ) : jsub (finite a) (finite b) = finite (a - b) := by
  rw [sub_eq_add_neg]; rfl

@[simp] theorem jmul_finite (a b : ℚ) : jmul (finite a) (finite b) = finite (a * b) := rfl

theorem jdiv_finite (a b : ℚ) (hb : b ≠ 0) : jdiv (finite a) (finite b) = finite (a / b) := by
  simp [jdiv, hb]

theorem jlt_finite (a b : ℚ) : jlt (finite a) (finite b) = decide (a < b) := rfl

theorem jsSqrt_sq (q : ℚ) (hq : 0 ≤ q) : jsSqrt (finite (q * q)) = finite q := by
  have h1 : ¬ (q * q < 0) := not_lt.mpr (mul_self_nonneg q)
  simp [jsSqrt, h1, Rat.sqrt_eq, abs_of_nonneg hq]

theorem jsSqrt_zero : jsSqrt (finite 0) = finite 0 := by
  have h := jsSqrt_sq 0 le_rfl
  simpa using h

end JsNum

/-- The nodes of the coincident-pair counterexample: two nodes at the origin
with no `size` field, so the registered radius accessor gives each the
default radius 0.8. -/
def originCNode : CNode := ⟨JsNum.finite 0, JsNum.finite 0, JsNum.finite 0, none⟩

/-- A node whose whole position has become NaN. -/
def nanCNode : CNode := ⟨JsNum.nan, JsNum.nan, JsNum.nan, none⟩

/-- Shared evaluation: one application of `forceCollide3D` (with the radius
accessor, the default strength 0.7 and alpha 1) to two coincident nodes at
the origin computes `l = 0`, `r = 1.6`, takes the `l < r` branch, divides by
zero (`f = (0 - 1.6) / 0 * 1 * 0.7 = -Infinity`), multiplies the zero
separation vector by it (`0 * -Infinity = NaN`), and leaves both nodes with
NaN positions. -/
theorem collideCoincidentEval :
    forceCollide3DApply collideRadiusDefault (JsNum.finite (7 / 10)) (JsNum.finite 1)
      [originCNode, originCNode] = [nanCNode, nanCNode] := by
  have hpair : collidePair collideRadiusDefault (JsNum.finite (7 / 10)) (JsNum.finite 1)
      originCNode originCNode = (nanCNode, nanCNode) := by
    simp [originCNode, nanCNode, collidePair, collideRadiusDefault, JsNum.jsub_finite,
      JsNum.jadd_finite, JsNum.jmul_finite, JsNum.jsSqrt_zero]
    norm_num [JsNum.jlt, JsNum.jdiv, JsNum.jmul, JsNum.jsub, JsNum.jadd, JsNum.jneg]
  have hpair2 : collidePair collideRadiusDefault (JsNum.finite (7 / 10)) (JsNum.finite 1)
      nanCNode nanCNode = (nanCNode, nanCNode) := rfl
  simp only [forceCollide3DApply, collideVisitAll, collideScanPair,
    show List.range 2 = [0, 1] from rfl, List.foldl, List.length_cons, List.length_nil]
  simp only [List.get?, List.set, hpair, hpair2]
  simp

/-! ## Claim C1: per-tick force invocation order -/

/-- C1 counterexample: the claim that every registered force's `apply` runs
exactly once per tick, in the eight-element order ending at collision, is
false on the code — the overridden `tick` runs the z-axis and collision
forces a second time after the original tick, so each is invoked twice and
the invocation sequence differs from the registration order. -/
theorem tick_z_and_collide_invoked_twice :
    tickForceInvocations.count ForceName.z = 2 ∧
    tickForceInvocations.count ForceName.collide = 2 ∧
    tickForceInvocations ≠ registeredForces := by
  decide

/-- C1 amended: one call of the overridden `tick` invokes the forces in the
order link, charge, center, radial, positional(x), positional(y), z-axis,
collision — and then invokes the z-axis and collision forces once more, so
those two run twice per tick while every other force runs exactly once. -/
theorem tick_invocation_order :
    tickForceInvocations =
      [ForceName.link, ForceName.charge, ForceName.center, ForceName.radial,
       ForceName.posX, ForceName.posY, ForceName.z, ForceName.collide,
       ForceName.z, ForceName.collide] ∧
    (∀ f : ForceName, f ≠ ForceName.z → f ≠ ForceName.collide →
      tickForceInvocations.count f = 1) ∧
    tickForceInvocations.count ForceName.z = 2 ∧
    tickForceInvocations.count ForceName.collide = 2 := by
  refine ⟨rfl, ?_, by decide, by decide⟩
  intro f
  cases f <;> decide

/-- Witness for `tick_invocation_order`: the link force is invoked exactly
once per tick. -/
theorem tick_invocation_order_witness :
    tickForceInvocations.count ForceName.link = 1 :=
  tick_invocation_order.2.1 ForceName.link (by decide) (by decide)

/-! ## Claim C2: the z-axis per-node update -/

/-- C2 counterexample: the code never damps `vz` — there is no `vz *= 0.9`;
the factor 0.9 scales only the position increment (`node.z += node.vz * 0.9`).
At `alpha = strength = 1`, `target = 0` and a node with `z = 1`, `vz = 0`,
the code leaves `vz = -1` where the claimed update sequence would leave
`vz = -0.9`, so the two updates produce different states. -/
theorem forceZ_no_velocity_damping :
    (forceZStepNode 1 1 0 ⟨1, some 0⟩).vz = some (-1) ∧
    (forceZStepSpec 1 1 0 ⟨1, some 0⟩).vz = some (-9 / 10) ∧
    forceZStepNode 1 1 0 ⟨1, some 0⟩ ≠ forceZStepSpec 1 1 0 ⟨1, some 0⟩ := by
  refine ⟨by simp [forceZStepNode], by simp [forceZStepSpec]; norm_num, ?_⟩
  simp [forceZStepNode, forceZStepSpec, ZNode.mk.injEq]
  norm_num

/-- C2 amended: each application of the z-axis force sets
`vz := vz + alpha * strength * (target - z)` (an absent `vz` read as 0) and
then `z := z + vz * 0.9`; the damping factor 0.9 scales only the position
increment and `vz` itself is not damped.  The resulting `z` agrees with the
spec's update sequence, but the stored `vz` is the undamped value where the
spec's sequence would store the damped one. -/
theorem forceZ_step_characterization (alpha strength target : ℚ) (n : ZNode) :
    (forceZStepNode alpha strength target n).vz =
      some (n.vz.getD 0 + alpha * strength * (target - n.z)) ∧
    (forceZStepNode alpha strength target n).z =
      n.z + (n.vz.getD 0 + alpha * strength * (target - n.z)) * (9 / 10) ∧
    (forceZStepNode alpha strength target n).z = (forceZStepSpec alpha strength target n).z ∧
    (forceZStepSpec alpha strength target n).vz =
      some ((n.vz.getD 0 + alpha * strength * (target - n.z)) * (9 / 10)) :=
  ⟨rfl, rfl, rfl, rfl⟩

/-! ## Claims C3 and C4: the missing zero-distance guard -/

/-- C3 fails on the code (the spec is explicit that it must not): for two
distinct nodes at identical coordinates — both at the origin, default radius
0.8, alpha 1 — the collision body is not skipped, divides by the zero
distance, and after one application of the collision force both nodes'
positions are NaN in every component. -/
theorem collide_coincident_nodes_become_nan :
    forceCollide3DApply collideRadiusDefault (JsNum.finite (7 / 10)) (JsNum.finite 1)
      [originCNode, originCNode] =
    [⟨JsNum.nan, JsNum.nan, JsNum.nan, none⟩, ⟨JsNum.nan, JsNum.nan, JsNum.nan, none⟩] :=
  collideCoincidentEval

/-- C4 fails on the code (the spec demands the invariant): positions do not
stay finite for every initial graph — starting from two coincident nodes at
the origin, already after the first collision pass (hence after the first
tick, whose overridden `tick` applies the collision force) no node position
component is finite. -/
theorem collide_coincident_breaks_finiteness :
    ((forceCollide3DApply collideRadiusDefault (JsNum.finite (7 / 10)) (JsNum.finite 1)
        [originCNode, originCNode]).all
      (fun n => n.x.isFinite && n.y.isFinite && n.z.isFinite)) = false := by
  rw [collideCoincidentEval]
  rfl

/-! ## Claim C5: overlap correction formula and pairwise symmetry -/

/-- C5: for a candidate pair of distinct nodes with finite positions whose
computed 3D distance `lq` is positive and smaller than the sum `ra + rb` of
their radii, the collision body applies exactly the correction
`f = (lq - (ra + rb)) / lq * alpha * strength` along the 3D separation
vector: the first node's position moves by `-(d * f)` and the second node's
by `+(d * f)` componentwise — equal and opposite displacement with no mass
weighting, the displacement of one the exact negation of the other. -/
theorem collidePair_overlap_symmetric
    (radius_ : CNode → JsNum) (aq sq ra rb nx ny nz ox oy oz lq : ℚ)
    (nsz osz : Option JsNum)
    (hra : radius_ ⟨JsNum.finite nx, JsNum.finite ny, JsNum.finite nz, nsz⟩ = JsNum.finite ra)
    (hrb : radius_ ⟨JsNum.finite ox, JsNum.finite oy, JsNum.finite oz, osz⟩ = JsNum.finite rb)
    (hl : JsNum.jsSqrt (JsNum.finite ((nx - ox) * (nx - ox) + (ny - oy) * (ny - oy) +
            (nz - oz) * (nz - oz))) = JsNum.finite lq)
    (hlpos : 0 < lq) (hover : lq < ra + rb) :
    collidePair radius_ (JsNum.finite sq) (JsNum.finite aq)
        ⟨JsNum.finite nx, JsNum.finite ny, JsNum.finite nz, nsz⟩
        ⟨JsNum.finite ox, JsNum.finite oy, JsNum.finite oz, osz⟩ =
      (⟨JsNum.finite (nx - (nx - ox) * ((lq - (ra + rb)) / lq * aq * sq)),
        JsNum.finite (ny - (ny - oy) * ((lq - (ra + rb)) / lq * aq * sq)),
        JsNum.finite (nz - (nz - oz) * ((lq - (ra + rb)) / lq * aq * sq)), nsz⟩,
       ⟨JsNum.finite (ox + (nx - ox) * ((lq - (ra + rb)) / lq * aq * sq)),
        JsNum.finite (oy + (ny - oy) * ((lq - (ra + rb)) / lq * aq * sq)),
        JsNum.finite (oz + (nz - oz) * ((lq - (ra + rb)) / lq * aq * sq)), osz⟩) ∧
    (nx - (nx - ox) * ((lq - (ra + rb)) / lq * aq * sq)) - nx =
      -((ox + (nx - ox) * ((lq - (ra + rb)) / lq * aq * sq)) - ox) ∧
    (ny - (ny - oy) * ((lq - (ra + rb)) / lq * aq * sq)) - ny =
      -((oy + (ny - oy) * ((lq - (ra + rb)) / lq * aq * sq)) - oy) ∧
    (nz - (nz - oz) * ((lq - (ra + rb)) / lq * aq * sq)) - nz =
      -((oz + (nz - oz) * ((lq - (ra + rb)) / lq * aq * sq)) - oz) := by
  have hlq : lq ≠ 0 := ne_of_gt hlpos
  have hdiv : JsNum.jdiv (JsNum.finite (lq - (ra + rb))) (JsNum.finite lq) =
      JsNum.finite ((lq - (ra + rb)) / lq) := JsNum.jdiv_finite _ _ hlq
  refine ⟨?_, by ring, by ring, by ring⟩
  simp only [collidePair, JsNum.jsub_finite, JsNum.jmul_finite, JsNum.jadd_finite, hl, hra, hrb,
    hdiv, JsNum.jlt_finite]
  rw [if_pos (decide_eq_true hover)]

/-- Witness for `collidePair_overlap_symmetric`: two nodes of size 2 (radius
3 each) at (0,0,0) and (3,4,0); the computed distance is 5, below the radius
sum 6, so the correction `f = (5 - 6) / 5 * 1 * 0.7` is applied with equal
and opposite displacements. -/
theorem collidePair_overlap_symmetric_witness :
    collidePair collideRadiusDefault (JsNum.finite (7 / 10)) (JsNum.finite 1)
        ⟨JsNum.finite 0, JsNum.finite 0, JsNum.finite 0, some (JsNum.finite 2)⟩
        ⟨JsNum.finite 3, JsNum.finite 4, JsNum.finite 0, some (JsNum.finite 2)⟩ =
      (⟨JsNum.finite (0 - (0 - 3) * ((5 - (3 + 3)) / 5 * 1 * (7 / 10))),
        JsNum.finite (0 - (0 - 4) * ((5 - (3 + 3)) / 5 * 1 * (7 / 10))),
        JsNum.finite (0 - (0 - 0) * ((5 - (3 + 3)) / 5 * 1 * (7 / 10))),
        some (JsNum.finite 2)⟩,
       ⟨JsNum.finite (3 + (0 - 3) * ((5 - (3 + 3)) / 5 * 1 * (7 / 10))),
        JsNum.finite (4 + (0 - 4) * ((5 - (3 + 3)) / 5 * 1 * (7 / 10))),
        JsNum.finite (0 + (0 - 0) * ((5 - (3 + 3)) / 5 * 1 * (7 / 10))),
        some (JsNum.finite 2)⟩) ∧
    ((0 : ℚ) - (0 - 3) * ((5 - (3 + 3)) / 5 * 1 * (7 / 10))) - 0 =
      -((3 + (0 - 3) * ((5 - (3 + 3)) / 5 * 1 * (7 / 10))) - 3) ∧
    ((0 : ℚ) - (0 - 4) * ((5 - (3 + 3)) / 5 * 1 * (7 / 10))) - 0 =
      -((4 + (0 - 4) * ((5 - (3 + 3)) / 5 * 1 * (7 / 10))) - 4) ∧
    ((0 : ℚ) - (0 - 0) * ((5 - (3 + 3)) / 5 * 1 * (7 / 10))) - 0 =
      -((0 + (0 - 0) * ((5 - (3 + 3)) / 5 * 1 * (7 / 10))) - 0) :=
  collidePair_overlap_symmetric collideRadiusDefault 1 (7 / 10) 3 3 0 0 0 3 4 0 5
    (some (JsNum.finite 2)) (some (JsNum.finite 2))
    (by norm_num [collideRadiusDefault, jsTruthy])
    (by norm_num [collideRadiusDefault, jsTruthy])
    (by rw [show ((0 : ℚ) - 3) * ((0 : ℚ) - 3) + ((0 : ℚ) - 4) * ((0 : ℚ) - 4) +
          ((0 : ℚ) - 0) * ((0 : ℚ) - 0) = (5 : ℚ) * 5 by norm_num]
        exact JsNum.jsSqrt_sq 5 (by norm_num))
    (by norm_num) (by norm_num)

/-! ## Claim C6: re-activation on dynamic growth -/

/-- C6: appending a node (or a link) sets the simulation's alpha to 0.5 and
restarts it; in particular alpha afterwards is at least 0.5 no matter how far
it had decayed before the call. -/
theorem addNode_addLink_reactivation (s : SimGrowState) (n : String)
    (l : String × String) :
    (addNodeToSimulation s n).alpha = 1 / 2 ∧
    (addNodeToSimulation s n).running = true ∧
    (addNodeToSimulation s n).nodes = s.nodes ++ [n] ∧
    (1 : ℚ) / 2 ≤ (addNodeToSimulation s n).alpha ∧
    (addLinkToSimulation s l).alpha = 1 / 2 ∧
    (addLinkToSimulation s l).running = true ∧
    (addLinkToSimulation s l).links = s.links ++ [l] ∧
    (1 : ℚ) / 2 ≤ (addLinkToSimulation s l).alpha := by
  refine ⟨rfl, rfl, rfl, le_refl _, rfl, rfl, rfl, le_refl _⟩

/-! ## Claim C7: unresolvable link endpoints -/

/-- A helper fact: `linkForceStep` never changes the list of node ids, as
long as the spring displacement `pull` itself preserves them. -/
theorem linkForceStep_ids (pull : LNode → LNode → List LNode → List LNode)
    (hpull : ∀ a b ns, (pull a b ns).map LNode.id = ns.map LNode.id)
    (ns : List LNode) (l : LLink) :
    (linkForceStep pull ns l).map LNode.id = ns.map LNode.id := by
  unfold linkForceStep
  cases hs : resolveEndpoint ns l.sourceId with
  | none => rfl
  | some a =>
    cases ht : resolveEndpoint ns l.targetId with
    | none => rfl
    | some b => exact hpull a b ns

/-- A helper fact: resolution failure only depends on the ids present. -/
theorem resolveEndpoint_eq_none_iff (ns : List LNode) (nid : String) :
    resolveEndpoint ns nid = none ↔ nid ∉ ns.map LNode.id := by
  unfold resolveEndpoint
  rw [List.find?_eq_none]
  simp [eq_comm]

/-- C7 (spec-modelled: the endpoint-resolution logic lives in the external
d3-force library, not in src/; the model follows the spec's stated
invariant): a link whose source or target id resolves to no node in the live
node set contributes no force — the link-force application with that link
present equals the application without it — and, the model being a total
function, nothing is thrown.  The displacement `pull` may be any function
that does not change node ids. -/
theorem linkForce_unresolved_no_contribution
    (pull : LNode → LNode → List LNode → List LNode)
    (hpull : ∀ a b ns, (pull a b ns).map LNode.id = ns.map LNode.id)
    (nodes : List LNode) (pre post : List LLink) (l : LLink)
    (h : resolveEndpoint nodes l.sourceId = none ∨
         resolveEndpoint nodes l.targetId = none) :
    linkForceApply pull nodes (pre ++ l :: post) =
      linkForceApply pull nodes (pre ++ post) := by
  suffices hgen : ∀ ns : List LNode, ns.map LNode.id = nodes.map LNode.id →
      linkForceApply pull ns (pre ++ l :: post) = linkForceApply pull ns (pre ++ post) from
    hgen nodes rfl
  induction pre with
  | nil =>
    intro ns hids
    have hskip : linkForceStep pull ns l = ns := by
      unfold linkForceStep
      rcases h with hsrc | htgt
      · have : resolveEndpoint ns l.sourceId = none := by
          rw [resolveEndpoint_eq_none_iff] at hsrc ⊢
          rw [hids]; exact hsrc
        rw [this]
      · have htgt' : resolveEndpoint ns l.targetId = none := by
          rw [resolveEndpoint_eq_none_iff] at htgt ⊢
          rw [hids]; exact htgt
        cases hs : resolveEndpoint ns l.sourceId with
        | none => rfl
        | some a => rw [htgt']
    show List.foldl (linkForceStep pull) ns (l :: post) = linkForceApply pull ns post
    rw [List.foldl_cons, hskip]
    rfl
  | cons p ps ih =>
    intro ns hids
    show List.foldl (linkForceStep pull) ns (p :: (ps ++ l :: post)) =
      List.foldl (linkForceStep pull) ns (p :: (ps ++ post))
    rw [List.foldl_cons, List.foldl_cons]
    exact ih (linkForceStep pull ns p)
      ((linkForceStep_ids pull hpull ns p).trans hids)

/-- Witness for `linkForce_unresolved_no_contribution`: a single node "a"
and a single link "a" → "b" whose target id resolves to nothing; the link
force leaves the node list exactly as an empty link set would, under a pull
that shifts x by one (and preserves ids). -/
theorem linkForce_unresolved_no_contribution_witness :
    linkForceApply (fun _ _ ns => ns.map (fun n => ⟨n.id, n.x + 1, n.y⟩))
        [⟨"a", 0, 0⟩] ([] ++ ⟨"a", "b"⟩ :: []) =
      linkForceApply (fun _ _ ns => ns.map (fun n => ⟨n.id, n.x + 1, n.y⟩))
        [⟨"a", 0, 0⟩] ([] ++ []) :=
  linkForce_unresolved_no_contribution
    (fun _ _ ns => ns.map (fun n => ⟨n.id, n.x + 1, n.y⟩))
    (by intro a b ns; simp [List.map_map, Function.comp])
    [⟨"a", 0, 0⟩] [] [] ⟨"a", "b"⟩
    (Or.inr (by simp [resolveEndpoint]))

/-! ## Claim C8: the stabilization controller's terminal freeze -/

/-- C8 (spec-modelled: no file under src/ implements the frame-threshold
controller the spec describes; the animation loop in NodeGraph.svelte has no
frame counter, running flag or `tick()` call, so the controller is modelled
from §4.4): a running controller whose frame counter reaches the threshold
on this step clears `running`; and a stopped controller is a fixed point of
the per-frame step — any number of further steps leaves the whole state, in
particular every node position, unchanged, whatever `tick` would do.  The
only transition out of the stopped state in the model is the external
re-activation path. -/
theorem controller_freeze (threshold : ℕ)
    (tick : List (ℚ × ℚ × ℚ) → List (ℚ × ℚ × ℚ)) (st : ControllerState)
    (hstop : st.running = false) :
    (∀ n : ℕ, (controllerStep threshold tick)^[n] st = st) ∧
    (∀ st' : ControllerState, st'.running = true → threshold ≤ st'.frames + 1 →
      (controllerStep threshold tick st').running = false) := by
  constructor
  · intro n
    apply Function.iterate_fixed
    simp [controllerStep, hstop]
  · intro st' hrun hth
    simp only [controllerStep, hrun, if_true]
    simpa using Nat.not_lt.mpr hth

/-- Witness for `controller_freeze`: with threshold 2 and a `tick` that
would wipe all positions, a stopped controller holding one node at (1,2,3)
is unchanged by three further per-frame steps. -/
theorem controller_freeze_witness :
    (controllerStep 2 (fun _ => []))^[3]
        ⟨[(1, 2, 3)], 5, false⟩ = ⟨[(1, 2, 3)], 5, false⟩ :=
  (controller_freeze 2 (fun _ => []) ⟨[(1, 2, 3)], 5, false⟩ rfl).1 3

/-! ## Claim C9: lazy `vz` initialization -/

/-- C9: when a node reaches the z-axis force with `vz` still undefined, the
force initializes it to 0 before using it — the update equals the update of
the same node arriving with `vz = 0`, and afterwards `vz` is defined.  Since
the check runs on every application, this covers nodes appended to the
simulation after the initial build. -/
theorem forceZ_initializes_vz (alpha strength target : ℚ) (n : ZNode)
    (h : n.vz = none) :
    forceZStepNode alpha strength target n =
      forceZStepNode alpha strength target { n with vz := some 0 } ∧
    ((forceZStepNode alpha strength target n).vz).isSome = true := by
  constructor
  · simp [forceZStepNode, h]
  · rfl

/-- Witness for `forceZ_initializes_vz` at `alpha = 1`, `strength = 1`,
`target = 0`, a node with `z = 5` and undefined `vz`. -/
theorem forceZ_initializes_vz_witness :
    forceZStepNode 1 1 0 ⟨5, none⟩ = forceZStepNode 1 1 0 ⟨5, some 0⟩ ∧
    ((forceZStepNode 1 1 0 ⟨5, none⟩).vz).isSome = true :=
  forceZ_initializes_vz 1 1 0 ⟨5, none⟩ rfl

/-! ## Claim C10: selection-store toggle and single selection -/

/-- C10: toggling a node id that is not currently selected returns `true`
and leaves it selected; toggling the currently selected id returns `false`
and leaves the selection empty; and after any sequence of select, deselect,
toggle and clear operations at most one node is selected — any two ids the
store reports selected are equal. -/
theorem selection_toggle_and_at_most_one
    (s : SelState) (nid : String) (hne : s ≠ some nid)
    (ops : List SelOp) (init : SelState) (a b : String)
    (ha : selStoreIsSelected a (selStoreRun ops init) = true)
    (hb : selStoreIsSelected b (selStoreRun ops init) = true) :
    selStoreToggle nid s = (true, some nid) ∧
    selStoreToggle nid (some nid) = (false, none) ∧
    a = b := by
  refine ⟨?_, ?_, ?_⟩
  · simp [selStoreToggle, hne]
  · simp [selStoreToggle]
  · have ha' : selStoreRun ops init = some a := by
      simpa [selStoreIsSelected] using ha
    have hb' : selStoreRun ops init = some b := by
      simpa [selStoreIsSelected] using hb
    rw [ha'] at hb'
    exact Option.some_injective _ hb'

/-- Witness for `selection_toggle_and_at_most_one`: toggling "n1" on an
empty selection selects it, toggling it again deselects; after running
`toggle "n2"` on an empty store, any two selected ids are both "n2". -/
theorem selection_toggle_and_at_most_one_witness :
    selStoreToggle "n1" none = (true, some "n1") ∧
    selStoreToggle "n1" (some "n1") = (false, none) ∧
    "n2" = "n2" :=
  selection_toggle_and_at_most_one none "n1" (by simp)
    [SelOp.toggle "n2"] none "n2" "n2" rfl rfl
